import Mathlib

/-!
Shallow embedding of the BESS dashboard front-end
(src/frontend/src/components and the unnamed PredictionsSection variant).

The embedded pieces:
* `ForecastingSection` — selected-date state, the two forecast panel
  descriptors, the date-keyed fetch effect, and the image mapping updated by
  the fetch handler (ForecastingSection.tsx lines 9-46);
* `BessDashboard` / `BessNavigation` — the string-typed active-section state,
  the section dispatch with its default branch, and the navigation item ids
  (PredictionsSection.tsx lines 216-230, BessNavigation.tsx lines 5-30);
* `OverviewSection` and the iframe-based `PredictionsSection` — the fixed
  visualization-provider URLs (OverviewSection.tsx lines 2-39, the unnamed
  PredictionsSection lines 6-14).

Asynchrony is embedded as an explicit event trace: a `select` event is the
user picking a date, a `resolve` event is one in-flight fetch completing with
some outcome, applied in resolution order.  Browser object-URL lifecycle calls
are logged as `UrlEffect`s so that (non-)revocation is observable.
-/

namespace Bess

/-- A calendar date, as the (year, month, day) triple the component formats
and sends; the JS `Date` time-of-day component is irrelevant to the embedded
logic and omitted. -/
structure Date where
  year : Nat
  month : Nat
  day : Nat
deriving DecidableEq, Repr

/-- A calendar date in the range the `yyyy-MM-dd` pattern renders at fixed
width: a four-digit year and real month/day values. -/
def Date.valid (d : Date) : Prop :=
  d.year < 10000 ∧ 1 ≤ d.month ∧ d.month ≤ 12 ∧ 1 ≤ d.day ∧ d.day ≤ 31

instance (d : Date) : Decidable d.valid := by
  unfold Date.valid; infer_instance

/-- Modelled from the `date-fns` dependency: the two-digit zero-padded field
(`MM` / `dd` pattern parts) for an in-range value. -/
def pad2 (n : Nat) : String :=
  String.mk [Nat.digitChar (n / 10 % 10), Nat.digitChar (n % 10)]

/-- Modelled from the `date-fns` dependency: the four-digit zero-padded field
(`yyyy` pattern part) for an in-range value. -/
def pad4 (n : Nat) : String :=
  String.mk [Nat.digitChar (n / 1000 % 10), Nat.digitChar (n / 100 % 10),
             Nat.digitChar (n / 10 % 10), Nat.digitChar (n % 10)]

/-- Modelled from the `date-fns` dependency: `format(d, "yyyy-MM-dd")` —
four-digit year, two-digit month, two-digit day, hyphen-separated.  Faithful
for dates satisfying `Date.valid`. -/
def formatDate (d : Date) : String :=
  pad4 d.year ++ "-" ++ pad2 d.month ++ "-" ++ pad2 d.day

/-- One entry of the `forecastImages` array (ForecastingSection.tsx 13-28). -/
structure ForecastPanel where
  id : String
  title : String
  description : String
  apiEndpoint : String
  placeholder : String
deriving DecidableEq, Repr

/-- The `forecastImages` array of ForecastingSection.tsx. -/
def forecastImages : List ForecastPanel :=
  [ { id := "energy-demand"
    , title := "Energy Demand Forecast"
    , description := "24-hour ahead prediction of energy demand patterns based on historical data, weather conditions, and grid requirements."
    , apiEndpoint := "http://localhost:8000/plot-soc"
    , placeholder := "Demand forecast chart will be displayed here" }
  , { id := "price-optimization"
    , title := "Price Optimization Forecast"
    , description := "Real-time energy price predictions and optimal charge/discharge timing recommendations for maximum cost efficiency."
    , apiEndpoint := "http://localhost:8000/plot-revenue"
    , placeholder := "Price optimization visualization will be displayed here" }
  ]

/-- The request URL built in the effect body:
`const url = apiEndpoint + "?date=" + dateStr` (ForecastingSection.tsx 32-33);
`dateStr` is the formatted selected date (the state is always a `Date`
object, so the falsy branch producing `""` is dead). -/
def requestUrl (p : ForecastPanel) (d : Date) : String :=
  p.apiEndpoint ++ "?date=" ++ formatDate d

/-- The `images` state cell: a JS object keyed by panel id
(ForecastingSection.tsx line 11), read pointwise as `images[key]`. -/
abbrev Images := String → Option String

/-- The initial `useState({})` value: no key present. -/
def emptyImages : Images := fun _ => none

/-- The JS spread update `{...prev, [id]: url}` used in `setImages`
(ForecastingSection.tsx line 39): key `id` now maps to `url`, every other
key reads as before. -/
def setImage (prev : Images) (id url : String) : Images :=
  fun k => if k = id then some url else prev k

/-- The observable result of one fetch for a panel:
either the transport layer threw (`fetch`/`blob` rejection), or the response
arrived non-OK, or it arrived OK and `URL.createObjectURL` produced `url`. -/
inductive FetchOutcome where
  | networkError
  | httpError (status : Nat)
  | success (url : String)
deriving DecidableEq, Repr

/-- Whether the outcome is a failure (transport error or non-OK status). -/
def FetchOutcome.isFailure : FetchOutcome → Bool
  | .networkError => true
  | .httpError _ => true
  | .success _ => false

/-- The `try` block of the per-panel effect body (ForecastingSection.tsx
34-40): a thrown transport error is an `Except.error`; a non-OK response
skips `setImages`; an OK response stores the object URL under the panel id. -/
def tryFetchBody (o : FetchOutcome) (prev : Images) (id : String) :
    Except String Images :=
  match o with
  | .networkError => .error "fetch rejected"
  | .httpError _ => .ok prev
  | .success url => .ok (setImage prev id url)

/-- The whole effect body including the `catch` (ForecastingSection.tsx
34-43): the catch block is empty, so every thrown error is swallowed and the
images state is left as it was.  The `Except` codomain records whether an
error escapes the handler: by construction it never does. -/
def fetchHandlerE (o : FetchOutcome) (prev : Images) (id : String) :
    Except String Images :=
  match tryFetchBody o prev id with
  | .ok next => .ok next
  | .error _ => .ok prev

/-- The images state after the handler ran (the always-OK payload of
`fetchHandlerE`). -/
def fetchHandler (o : FetchOutcome) (prev : Images) (id : String) : Images :=
  match tryFetchBody o prev id with
  | .ok next => next
  | .error _ => prev

/-- The two state cells of `ForecastingSection` (lines 10-11). -/
structure ForecastState where
  selectedDate : Date
  images : Images

/-- The calendar `onSelect` handler `setSelectedDate`; only the date cell
changes. -/
def selectDate (d : Date) (s : ForecastState) : ForecastState :=
  { s with selectedDate := d }

/-- The fetches issued by one run of the `useEffect` body (lines 30-46):
one request per entry of `forecastImages`, in array order, each tagged with
the panel id and carrying the URL built from the current selected date. -/
def effectFetches (s : ForecastState) : List (String × String) :=
  forecastImages.map fun p => (p.id, requestUrl p s.selectedDate)

/-- A browser object-URL lifecycle call, logged so that (non-)revocation is
observable in a run. -/
inductive UrlEffect where
  | createObjectURL (url : String)
  | revokeObjectURL (url : String)
deriving DecidableEq, Repr

/-- Whether the effect is a `URL.revokeObjectURL` call. -/
def UrlEffect.isRevoke : UrlEffect → Bool
  | .revokeObjectURL _ => true
  | .createObjectURL _ => false

/-- An event of the forecast controller, applied in the order the
single-threaded event loop observes it:
`select d` is the user picking date `d`; `resolve id o` is the continuation
of some earlier in-flight fetch for panel `id` completing with outcome `o`
(the code attaches no date tag and no cancellation to in-flight fetches, so a
resolution is applied whenever it arrives, regardless of the current
selected date). -/
inductive Event where
  | select (d : Date)
  | resolve (id : String) (o : FetchOutcome)
deriving DecidableEq, Repr

/-- One event applied to the controller state, with the object-URL calls it
performs.  `select` only swaps the date cell (the re-fetch it triggers shows
up later as `resolve` events); a successful resolution performs exactly one
`createObjectURL` and overwrites the panel entry via `setImage`; a failed one
does nothing.  No branch ever calls `revokeObjectURL` — the component has no
such call. -/
def step (s : ForecastState) : Event → ForecastState × List UrlEffect
  | .select d => (selectDate d s, [])
  | .resolve id o =>
      ({ s with images := fetchHandler o s.images id },
       match o with
       | .success url => [UrlEffect.createObjectURL url]
       | _ => [])

/-- A whole run: events applied left to right, effects concatenated. -/
def run (s : ForecastState) : List Event → ForecastState × List UrlEffect
  | [] => (s, [])
  | e :: es =>
      let (s', fx) := step s e
      let (s'', fx') := run s' es
      (s'', fx ++ fx')

/-! ## Section navigation (BessDashboard / BessNavigation) -/

/-- The three section views the dispatch can mount. -/
inductive View where
  | overview
  | forecasting
  | predictions
deriving DecidableEq, Repr

/-- The navigation item ids of BessNavigation.tsx (lines 11-30).  The
`activeSection` state and the `onSectionChange` callback are typed `string`
in the source, not as this closed set. -/
def knownSections : List String := ["overview", "forecasting", "predictions"]

/-- The initial state `useState<string>("overview")`
(PredictionsSection.tsx line 217). -/
def initialSection : String := "overview"

/-- The state setter `setActiveSection`, passed as `onSectionChange`; it
replaces the current value with the given string, whatever it is. -/
def setActiveSection (id _current : String) : String := id

/-- The dispatch `renderActiveSection` (PredictionsSection.tsx lines
219-230): a switch on the string-typed state with a `default` branch
rendering `OverviewSection`. -/
def renderActiveSection (activeSection : String) : View :=
  if activeSection = "overview" then .overview
  else if activeSection = "forecasting" then .forecasting
  else if activeSection = "predictions" then .predictions
  else .overview

/-- The view each known navigation item is meant to mount (the three labelled
cases of the switch); `none` for identifiers outside the known set. -/
def correspondingView (id : String) : Option View :=
  if id = "overview" then some .overview
  else if id = "forecasting" then some .forecasting
  else if id = "predictions" then some .predictions
  else none

/-! ## Visualization-provider panels (fixed iframe URLs) -/

/-- One entry of the `grafanaIframes` array (OverviewSection.tsx 2-39). -/
structure GrafanaPanel where
  id : String
  title : String
  src : String
  height : String
deriving DecidableEq, Repr

/-- The `grafanaIframes` array of OverviewSection.tsx. -/
def grafanaIframes : List GrafanaPanel :=
  [ { id := "system-status", title := "System Status Overview"
    , src := "https://your-grafana-instance.com/d/system-status/embed", height := "300px" }
  , { id := "power-flow", title := "Real-time Power Flow"
    , src := "https://your-grafana-instance.com/d/power-flow/embed", height := "400px" }
  , { id := "battery-metrics", title := "Battery Performance Metrics"
    , src := "https://your-grafana-instance.com/d/battery-metrics/embed", height := "350px" }
  , { id := "grid-connection", title := "Grid Connection Status"
    , src := "https://your-grafana-instance.com/d/grid-status/embed", height := "300px" }
  , { id := "environmental", title := "Environmental Conditions"
    , src := "https://your-grafana-instance.com/d/environmental/embed", height := "280px" }
  , { id := "alerts", title := "System Alerts & Warnings"
    , src := "https://your-grafana-instance.com/d/alerts/embed", height := "250px" }
  ]

/-- The `BASE` constant of the iframe-based PredictionsSection (unnamed
source, lines 6-7). -/
def predictionsBASE : String :=
  "http://localhost:3000/d-solo/a1ce40a4-3e62-4939-a48c-1343d0083aa1/security-and-incident-management?orgId=1&timezone=browser&theme=light&__feature.dashboardSceneSolo=true&kiosk"

/-- The `urls` record of the iframe-based PredictionsSection (lines 9-14),
in the order the component embeds them (gauges, latest, table, chart). -/
def predictionsUrls : List String :=
  [ predictionsBASE ++ "&from=1737723900000&to=1748088300000&panelId=1"
  , predictionsBASE ++ "&from=1737723900000&to=1748088300000&panelId=2"
  , predictionsBASE ++ "&from=1737723900000&to=1748088300000&panelId=3"
  , predictionsBASE ++ "&from=1735650300000&to=1740402300000&panelId=4"
  ]

/-- The URLs the `OverviewSection` component renders.  The component is a
closed term: it receives no props and reads no date state, so its output is
this constant. -/
def overviewSectionIframeSrcs : List String := grafanaIframes.map (·.src)

/-- The URLs the iframe-based `PredictionsSection` component renders.  Also a
closed term with no date input. -/
def predictionsSectionIframeSrcs : List String := predictionsUrls

/-- The whole-dashboard state the visualization panels could in principle
see: the active section and the forecast date. -/
structure DashboardState where
  activeSection : String
  selectedDate : Date

/-- The visualization-provider URLs rendered for a dashboard state: the
active view is dispatched exactly as `renderActiveSection` does, and each
section component produces its fixed list (the forecasting section embeds no
provider iframe). -/
def renderedIframeSrcs (s : DashboardState) : List String :=
  match renderActiveSection s.activeSection with
  | .overview => overviewSectionIframeSrcs
  | .forecasting => []
  | .predictions => predictionsSectionIframeSrcs

/-! ## Theorems -/

/-- C1: for any pair of distinct calendar dates, selecting `d2` after `d1`
re-runs the effect, which issues exactly one fetch per registered forecast
panel — the two panels energy-demand and price-optimization — and each
request URL is the panel's fixed endpoint followed by `?date=` and `d2`
rendered as four-digit year, two-digit month, two-digit day,
hyphen-separated. -/
theorem selectDate_fetches_each_panel_once
    (s : ForecastState) (d1 d2 : Date) (hsel : s.selectedDate = d1)
    (hne : d1 ≠ d2) :
    effectFetches (selectDate d2 s) =
      [("energy-demand", "http://localhost:8000/plot-soc?date=" ++ formatDate d2),
       ("price-optimization", "http://localhost:8000/plot-revenue?date=" ++ formatDate d2)] ∧
    (effectFetches (selectDate d2 s)).length = forecastImages.length ∧
    formatDate d2 = pad4 d2.year ++ "-" ++ pad2 d2.month ++ "-" ++ pad2 d2.day ∧
    (pad4 d2.year).length = 4 ∧ (pad2 d2.month).length = 2 ∧
    (pad2 d2.day).length = 2 :=
  ⟨rfl, rfl, rfl, rfl, rfl, rfl⟩

/-- Witness for C1 at the concrete dates 2025-06-01 and 2025-06-02. -/
theorem selectDate_fetches_each_panel_once_witness :
    effectFetches (selectDate ⟨2025, 6, 2⟩
        { selectedDate := ⟨2025, 6, 1⟩, images := emptyImages }) =
      [("energy-demand", "http://localhost:8000/plot-soc?date=2025-06-02"),
       ("price-optimization", "http://localhost:8000/plot-revenue?date=2025-06-02")] :=
  ((selectDate_fetches_each_panel_once
      { selectedDate := ⟨2025, 6, 1⟩, images := emptyImages }
      ⟨2025, 6, 1⟩ ⟨2025, 6, 2⟩ rfl (by decide)).1).trans (by decide)

/-- C2: the fetch handler never lets an error escape (its `Except` result is
always `ok`), and on any failing outcome — transport error or non-OK
status — the images mapping is returned exactly as it was, so a previously
displayed image stays in place. -/
theorem fetch_failure_leaves_images_unchanged
    (o : FetchOutcome) (prev : Images) (id : String) :
    (∃ next, fetchHandlerE o prev id = Except.ok next) ∧
    (o.isFailure = true → fetchHandlerE o prev id = Except.ok prev) := by
  constructor
  · cases o <;> exact ⟨_, rfl⟩
  · intro h
    cases o with
    | networkError => rfl
    | httpError status => rfl
    | success url => simp [FetchOutcome.isFailure] at h

/-- Witness for C2: an HTTP 500 outcome leaves a mapping holding a prior
image untouched. -/
theorem fetch_failure_leaves_images_unchanged_witness :
    fetchHandlerE (.httpError 500)
        (setImage emptyImages "energy-demand" "blob:prior") "energy-demand"
      = Except.ok (setImage emptyImages "energy-demand" "blob:prior") :=
  (fetch_failure_leaves_images_unchanged (.httpError 500)
      (setImage emptyImages "energy-demand" "blob:prior") "energy-demand").2 rfl

/-- C3: on a successful fetch the handler stores the object URL under the
panel's identifier — replacing any prior entry for that identifier — and the
entry of every other identifier reads exactly as before. -/
theorem fetch_success_stores_under_panel_id
    (prev : Images) (id url k : String) :
    fetchHandlerE (.success url) prev id = Except.ok (setImage prev id url) ∧
    setImage prev id url id = some url ∧
    (k ≠ id → setImage prev id url k = prev k) := by
  refine ⟨rfl, ?_, ?_⟩
  · simp [setImage]
  · intro h
    simp [setImage, h]

/-- Witness for C3: storing a new energy-demand image leaves the
price-optimization entry unchanged. -/
theorem fetch_success_stores_under_panel_id_witness :
    setImage (setImage emptyImages "price-optimization" "blob:old")
        "energy-demand" "blob:new" "price-optimization"
      = setImage emptyImages "price-optimization" "blob:old" "price-optimization" :=
  (fetch_success_stores_under_panel_id
      (setImage emptyImages "price-optimization" "blob:old")
      "energy-demand" "blob:new" "price-optimization").2.2 (by decide)

/-- C4 counterexample: a concrete run in which the energy-demand reference
`blob:1` is replaced by `blob:2` (a re-fetch after a date change), yet the
object-URL effect trace contains no revocation of `blob:1` — the component
has no `revokeObjectURL` call, so the old reference is not released as part
of the replacement. -/
theorem replaced_reference_not_released_cex :
    (run { selectedDate := ⟨2025, 6, 1⟩, images := emptyImages }
        [Event.resolve "energy-demand" (.success "blob:1"),
         Event.select ⟨2025, 6, 2⟩,
         Event.resolve "energy-demand" (.success "blob:2")]).1.images "energy-demand"
      = some "blob:2" ∧
    UrlEffect.revokeObjectURL "blob:1" ∉
      (run { selectedDate := ⟨2025, 6, 1⟩, images := emptyImages }
        [Event.resolve "energy-demand" (.success "blob:1"),
         Event.select ⟨2025, 6, 2⟩,
         Event.resolve "energy-demand" (.success "blob:2")]).2 := by
  constructor
  · rfl
  · decide

/-- C4 as amended: replacing a panel's image reference only overwrites the
mapping entry; the old local reference is never released — no run of the
controller ever performs a `revokeObjectURL` call. -/
theorem replacement_drops_reference_without_release
    (s : ForecastState) (evs : List Event) (id url : String) :
    (step s (.resolve id (.success url))).1.images id = some url ∧
    (run s evs).2.filter UrlEffect.isRevoke = [] := by
  constructor
  · simp [step, fetchHandler, tryFetchBody, setImage]
  · induction evs generalizing s with
    | nil => rfl
    | cons e es ih =>
      cases e with
      | select d =>
        simpa only [run, step, List.nil_append] using ih (selectDate d s)
      | resolve pid o =>
        cases o with
        | networkError =>
          simpa only [run, step, List.nil_append] using ih _
        | httpError status =>
          simpa only [run, step, List.nil_append] using ih _
        | success u =>
          simp only [run, step, List.cons_append, List.nil_append,
            List.filter_cons, UrlEffect.isRevoke]
          exact ih _

/-- C5 (the code at the failing interleaving): starting with selected date
2025-06-01, the user selects 2025-06-02; the fetch issued for 2025-06-02
resolves first with its image, then the stale fetch issued for 2025-06-01
resolves.  The handler applies the stale update unconditionally, so the final
state shows 2025-06-01's image while the selected date is 2025-06-02. -/
theorem stale_response_overwrites_newer :
    (run { selectedDate := ⟨2025, 6, 1⟩, images := emptyImages }
        [Event.select ⟨2025, 6, 2⟩,
         Event.resolve "energy-demand" (.success "blob:2025-06-02"),
         Event.resolve "energy-demand" (.success "blob:2025-06-01")]).1.selectedDate
      = ⟨2025, 6, 2⟩ ∧
    (run { selectedDate := ⟨2025, 6, 1⟩, images := emptyImages }
        [Event.select ⟨2025, 6, 2⟩,
         Event.resolve "energy-demand" (.success "blob:2025-06-02"),
         Event.resolve "energy-demand" (.success "blob:2025-06-01")]).1.images "energy-demand"
      = some "blob:2025-06-01" := by
  constructor
  · rfl
  · rfl

/-- C6 counterexample: the section-change operation's input type is the
unrestricted string type, not the enumerated set — the identifier `bogus` is
outside the known set yet is accepted and stored, and the dispatch resolves
it through its runtime `default` branch to the overview view rather than
rejecting it by construction. -/
theorem invalid_section_not_rejected_cex :
    setActiveSection "bogus" initialSection = "bogus" ∧
    "bogus" ∉ knownSections ∧
    renderActiveSection "bogus" = View.overview := by
  refine ⟨rfl, by decide, rfl⟩

/-- C6 as amended: `selectSection` accepts any string and synchronously
replaces the current section with it; for every identifier in the known set
the dispatch mounts the corresponding view, and identifiers outside the set
are not rejected but handled by the dispatch's runtime `default` branch,
which mounts the overview view. -/
theorem selectSection_dispatch (id cur : String) :
    setActiveSection id cur = id ∧
    (∀ v, correspondingView id = some v → renderActiveSection id = v) ∧
    (correspondingView id = none → renderActiveSection id = View.overview) := by
  refine ⟨rfl, ?_, ?_⟩
  · intro v hv
    unfold correspondingView at hv
    unfold renderActiveSection
    split_ifs at hv ⊢ <;> simp_all
  · intro hv
    unfold correspondingView at hv
    unfold renderActiveSection
    split_ifs at hv ⊢ <;> simp_all

/-- Witness for the amended C6: a known identifier mounts its view, an
unknown one falls through to overview. -/
theorem selectSection_dispatch_witness :
    renderActiveSection "forecasting" = View.forecasting ∧
    renderActiveSection "maintenance" = View.overview :=
  ⟨(selectSection_dispatch "forecasting" "overview").2.1 View.forecasting (by decide),
   (selectSection_dispatch "maintenance" "overview").2.2 (by decide)⟩

/-- C8: for any valid section identifier, `selectSection` is idempotent —
selecting it twice in a row leaves the same active-section state and renders
the same view as selecting it once. -/
theorem selectSection_idempotent (id cur : String) (h : id ∈ knownSections) :
    setActiveSection id (setActiveSection id cur) = setActiveSection id cur ∧
    renderActiveSection (setActiveSection id (setActiveSection id cur))
      = renderActiveSection (setActiveSection id cur) :=
  ⟨rfl, rfl⟩

/-- Witness for C8 at the predictions section. -/
theorem selectSection_idempotent_witness :
    setActiveSection "predictions" (setActiveSection "predictions" initialSection)
      = setActiveSection "predictions" initialSection :=
  (selectSection_idempotent "predictions" initialSection (by decide)).1

/-- C9: passing any string outside the known set to the section-change
operation stores that string as the active section, and the dispatch renders
the overview view through its `default` branch. -/
theorem unknown_section_renders_overview (id cur : String)
    (h : id ∉ knownSections) :
    setActiveSection id cur = id ∧ renderActiveSection id = View.overview := by
  refine ⟨rfl, ?_⟩
  simp only [knownSections, List.mem_cons, List.not_mem_nil, or_false] at h
  push_neg at h
  obtain ⟨h1, h2, h3⟩ := h
  simp [renderActiveSection, h1, h2, h3]

/-- Witness for C9 at the unknown identifier `settings`. -/
theorem unknown_section_renders_overview_witness :
    setActiveSection "settings" initialSection = "settings" ∧
    renderActiveSection "settings" = View.overview :=
  unknown_section_renders_overview "settings" initialSection (by decide)

/-- C7: the visualization-provider panels render fixed constant URLs — any
two dashboard states with the same active section render identical URL lists
regardless of the selected date, and whenever the overview or predictions
view is mounted the rendered list is exactly its build-time constant, so the
URLs are identical across every section switch and never a function of the
selected date. -/
theorem iframe_urls_fixed (s t : DashboardState)
    (h : s.activeSection = t.activeSection) :
    renderedIframeSrcs s = renderedIframeSrcs t ∧
    (renderActiveSection s.activeSection = View.overview →
      renderedIframeSrcs s = grafanaIframes.map GrafanaPanel.src) ∧
    (renderActiveSection s.activeSection = View.predictions →
      renderedIframeSrcs s = predictionsUrls) := by
  refine ⟨?_, ?_, ?_⟩
  · unfold renderedIframeSrcs
    rw [h]
  · intro hv
    unfold renderedIframeSrcs
    rw [hv]
    rfl
  · intro hv
    unfold renderedIframeSrcs
    rw [hv]
    rfl

/-- Witness for C7: with the predictions section active, changing the
selected date leaves the rendered URLs untouched, and they are the four
configured constants. -/
theorem iframe_urls_fixed_witness :
    renderedIframeSrcs { activeSection := "predictions", selectedDate := ⟨2025, 6, 1⟩ }
      = renderedIframeSrcs { activeSection := "predictions", selectedDate := ⟨2025, 6, 2⟩ } ∧
    renderedIframeSrcs { activeSection := "predictions", selectedDate := ⟨2025, 6, 1⟩ }
      = predictionsUrls :=
  ⟨(iframe_urls_fixed
      { activeSection := "predictions", selectedDate := ⟨2025, 6, 1⟩ }
      { activeSection := "predictions", selectedDate := ⟨2025, 6, 2⟩ } rfl).1,
   (iframe_urls_fixed
      { activeSection := "predictions", selectedDate := ⟨2025, 6, 1⟩ }
      { activeSection := "predictions", selectedDate := ⟨2025, 6, 2⟩ } rfl).2.2 rfl⟩

/-- C10: the image mapping is monotone in its key set — no event removes an
entry, so once a panel has an image reference stored, every later state of
any run (date changes, successes, failures, in any order) still has some
reference stored for that panel. -/
theorem images_key_monotone (s : ForecastState) (evs : List Event)
    (k : String) (h : s.images k ≠ none) :
    (run s evs).1.images k ≠ none := by
  induction evs generalizing s with
  | nil => exact h
  | cons e es ih =>
    cases e with
    | select d =>
      exact ih (selectDate d s) h
    | resolve pid o =>
      refine ih _ ?_
      cases o with
      | networkError => exact h
      | httpError status => exact h
      | success u =>
        show setImage s.images pid u k ≠ none
        unfold setImage
        split_ifs with hk
        · exact Option.some_ne_none u
        · exact h

/-- Witness for C10: an energy-demand image survives a date change, a failed
re-fetch, and a success on the other panel. -/
theorem images_key_monotone_witness :
    (run { selectedDate := ⟨2025, 6, 1⟩,
           images := setImage emptyImages "energy-demand" "blob:w" }
        [Event.select ⟨2025, 6, 2⟩,
         Event.resolve "energy-demand" (.httpError 500),
         Event.resolve "price-optimization" (.success "blob:x")]).1.images "energy-demand"
      ≠ none :=
  images_key_monotone
    { selectedDate := ⟨2025, 6, 1⟩,
      images := setImage emptyImages "energy-demand" "blob:w" }
    [Event.select ⟨2025, 6, 2⟩,
     Event.resolve "energy-demand" (.httpError 500),
     Event.resolve "price-optimization" (.success "blob:x")]
    "energy-demand" (by decide)

end Bess
